import Mathlib

/-!
Verification of the `ServiceClient` class of the ms-rest-js HTTP pipeline
(source file `serviceClient.ts`).

The embedding models:
* the policy-factory list built by the `ServiceClient` constructor
  (`signingFilter`, `msRestUserAgentFilter`, `redirectFilter`,
  `rpRegistrationFilter`, `exponentialRetryPolicyFilter`,
  `systemErrorRetryPolicyFilter`, plus caller-supplied creators), as a list of
  tags identifying which factory produced each entry;
* `addUserAgentInfo` as a pure function on the accumulated token list;
* the argument guard of `sendRequest` over a small model of JavaScript values;
* the policy chain builder `createRequestPipeline`, which the source imports
  from `./requestPipeline` (not among the source files) and which is therefore
  modelled from the spec, instrumented with traces that record the order in
  which policies see the request and the response.
-/

namespace MsRest

/-- Identifies which factory produced an entry of the `requestPolicyCreators`
array.  Caller-supplied creators (the entries already present in
`options.requestPolicyCreators`) are opaque and carry a numeric identity;
each default filter call in the constructor produces its own fresh creator. -/
inductive PolicyFactoryTag where
  | caller (id : Nat)
  | signing
  | msRestUserAgent
  | redirect
  | rpRegistration
  | exponentialRetry
  | systemErrorRetry
deriving DecidableEq, Repr

/-- `ServiceClientCredentials`: the constructor only inspects whether the
`signRequest` method is present (`credentials && !credentials.signRequest`). -/
structure ServiceClientCredentials where
  hasSignRequest : Bool
deriving DecidableEq, Repr

/-- The recognized fields of `ServiceClientOptions`.  Optional fields are
`Option`s; JavaScript truthiness of `noRetryPolicy` is `(·.getD false)`. -/
structure ServiceClientOptions where
  requestPolicyCreators : Option (List Nat) := none
  noRetryPolicy : Option Bool := none
  rpRegistrationRetryTimeout : Option Nat := none
deriving DecidableEq, Repr

/-- The observable state of a constructed `ServiceClient`: the accumulated
user-agent tokens and the policy-creator list handed to
`createRequestPipeline`. -/
structure ServiceClient where
  userAgentInfo : List String
  requestPolicyCreators : List PolicyFactoryTag
deriving DecidableEq, Repr

/-- `ServiceClient.addUserAgentInfo`: push the token only when
`indexOf(additionalUserAgentInfo) === -1`, i.e. when it is not yet present. -/
def ServiceClient.addUserAgentInfo (userAgentInfo : List String)
    (additionalUserAgentInfo : String) : List String :=
  if additionalUserAgentInfo ∈ userAgentInfo then userAgentInfo
  else userAgentInfo ++ [additionalUserAgentInfo]

/-- `moduleName` in the constructor. -/
def moduleName : String := "ms-rest-js"

/-- The `ServiceClient` constructor.  `msRestVersion` stands for
`Constants.msRestVersion` (a string constant imported from
`./util/constants`).  The creator list is the `push` sequence of the source:
caller-supplied creators first, then `signingFilter` when credentials were
given, then the user-agent, redirect and rpRegistration filters, then the two
retry filters unless `options.noRetryPolicy` is truthy. -/
def ServiceClient.construct (msRestVersion : String)
    (credentials : Option ServiceClientCredentials)
    (options0 : Option ServiceClientOptions) : Except String ServiceClient :=
  let options := options0.getD {}
  if credentials.any (fun c => !c.hasSignRequest) then
    Except.error "credentials argument needs to implement signRequest method"
  else
    Except.ok
      { userAgentInfo :=
          ServiceClient.addUserAgentInfo [] (moduleName ++ "/" ++ msRestVersion),
        requestPolicyCreators :=
          (((options.requestPolicyCreators.getD []).map PolicyFactoryTag.caller
              ++ (if credentials.isSome then [PolicyFactoryTag.signing] else []))
            ++ [PolicyFactoryTag.msRestUserAgent, PolicyFactoryTag.redirect,
                PolicyFactoryTag.rpRegistration])
            ++ (if (options.noRetryPolicy.getD false) then []
                else [PolicyFactoryTag.exponentialRetry,
                      PolicyFactoryTag.systemErrorRetry]) }

/-- A model of JavaScript values, rich enough to state the argument guard of
`ServiceClient.sendRequest`.  An `object` argument carries whether its
validation/preparation (`validateRequestProperties` / `prepare`, imported from
`./webResource`, not among the source files) succeeds. -/
inductive JsValue where
  | null
  | undefined
  | boolean (b : Bool)
  | number (n : Int)
  | string (s : String)
  | object (isWebResource : Bool) (prepareSucceeds : Bool)
deriving DecidableEq, Repr

/-- The JavaScript `typeof` operator on the modelled values
(`typeof null` is `"object"`). -/
def jsTypeof : JsValue → String
  | JsValue.null => "object"
  | JsValue.undefined => "undefined"
  | JsValue.boolean _ => "boolean"
  | JsValue.number _ => "number"
  | JsValue.string _ => "string"
  | JsValue.object _ _ => "object"

/-- The observable outcome of one `sendRequest` call: the synchronous
configuration error thrown by the guard, a rejected promise from request
preparation, or control reaching `this.httpRequestSender.sendRequest`. -/
inductive SendRequestResult where
  | configurationError (message : String)
  | rejected
  | pipelineInvoked
deriving DecidableEq, Repr

/-- `ServiceClient.sendRequest` up to the point where the pipeline is invoked:
the guard `options === null || options === undefined || typeof options !==
"object"` throws a configuration error; otherwise the request is prepared and,
on success, handed to the pipeline. -/
def ServiceClient.sendRequest (options : JsValue) : SendRequestResult :=
  if options = JsValue.null ∨ options = JsValue.undefined ∨
      jsTypeof options ≠ "object" then
    SendRequestResult.configurationError
      "options cannot be null or undefined and it must be of type object."
  else
    match options with
    | JsValue.object _ prepareSucceeds =>
        if prepareSucceeds then SendRequestResult.pipelineInvoked
        else SendRequestResult.rejected
    | _ => SendRequestResult.rejected  -- unreachable: only `object` and `null`
                                       -- have typeof "object", and `null` is
                                       -- caught by the guard

/-- A response instrumented with traces: `requestTrace` records the order in
which policies saw the request on its way in, `responseTrace` the order in
which they saw the response on its way out. -/
structure TracedResponse (α : Type) where
  requestTrace : List α
  responseTrace : List α
deriving DecidableEq, Repr

/-- A `RequestPolicy` maps the request (here: the trace accumulated so far) to
a response. -/
def RequestPolicy (α : Type) : Type := List α → TracedResponse α

/-- The terminal transport sender: it sees the fully accumulated request trace
and starts an empty response trace. -/
def terminalSender (α : Type) : RequestPolicy α :=
  fun reqTrace => { requestTrace := reqTrace, responseTrace := [] }

/-- A policy produced by the creator tagged `tag`: it stamps the request on
the way in, delegates to its inward policy `next`, and stamps the response on
the way out. -/
def tracedPolicy (tag : α) (next : RequestPolicy α) : RequestPolicy α :=
  fun reqTrace =>
    let resp := next (reqTrace ++ [tag])
    { requestTrace := resp.requestTrace,
      responseTrace := resp.responseTrace ++ [tag] }

/-- Modelled from the spec: `createRequestPipeline` is imported by the source
from `./requestPipeline`, which is not among the source files.  Per the spec,
each factory is invoked with the policy built from the remainder of the
sequence as its inward delegate, so the first-supplied factory is outermost
and the terminal transport sender is innermost. -/
def createRequestPipeline (creators : List α) : RequestPolicy α :=
  match creators with
  | [] => terminalSender α
  | c :: rest => tracedPolicy c (createRequestPipeline rest)

/-! ### Helper lemmas -/

theorem createRequestPipeline_trace {α : Type} (creators : List α) (acc : List α) :
    (createRequestPipeline creators acc).requestTrace = acc ++ creators ∧
    (createRequestPipeline creators acc).responseTrace = creators.reverse := by
  induction creators generalizing acc with
  | nil => simp [createRequestPipeline, terminalSender]
  | cons c rest ih =>
      have h := ih (acc ++ [c])
      simp [createRequestPipeline, tracedPolicy, h.1, h.2]

theorem addUserAgentInfo_foldl_head (ts : List String) (l : List String)
    (hl : l ≠ []) :
    (ts.foldl ServiceClient.addUserAgentInfo l).head? = l.head? := by
  induction ts generalizing l with
  | nil => rfl
  | cons t ts ih =>
      have h1 : ServiceClient.addUserAgentInfo l t ≠ [] := by
        unfold ServiceClient.addUserAgentInfo
        split <;> simp [hl]
      rw [List.foldl_cons, ih _ h1]
      unfold ServiceClient.addUserAgentInfo
      split
      · rfl
      · cases l with
        | nil => exact absurd rfl hl
        | cons a l => simp

/-! ### Claim theorems -/

/-- C1: for every sequence of policy factories handed to the chain builder,
the composite sender executes policies on the request side in exactly factory
registration order and on the response side in the exact reverse order, with
the terminal transport sender innermost (it receives the request stamped by
every policy). -/
theorem pipeline_policy_order {α : Type} (creators : List α) :
    (createRequestPipeline creators []).requestTrace = creators ∧
    (createRequestPipeline creators []).responseTrace = creators.reverse := by
  simpa using createRequestPipeline_trace creators []

/-- C4: a `sendRequest` argument that is null, undefined, or not
object-shaped fails with the configuration error, and the pipeline is never
invoked. -/
theorem sendRequest_rejects_nonobject (options : JsValue)
    (h : options = JsValue.null ∨ options = JsValue.undefined ∨
      jsTypeof options ≠ "object") :
    ServiceClient.sendRequest options =
      SendRequestResult.configurationError
        "options cannot be null or undefined and it must be of type object." ∧
    ServiceClient.sendRequest options ≠ SendRequestResult.pipelineInvoked := by
  cases options <;> simp_all [ServiceClient.sendRequest, jsTypeof]

/-- C4 witness: `sendRequest(42)` fails with the configuration error and the
pipeline is not invoked. -/
theorem sendRequest_rejects_nonobject_witness :
    ServiceClient.sendRequest (JsValue.number 42) =
      SendRequestResult.configurationError
        "options cannot be null or undefined and it must be of type object." ∧
    ServiceClient.sendRequest (JsValue.number 42) ≠
      SendRequestResult.pipelineInvoked :=
  sendRequest_rejects_nonobject (JsValue.number 42) (by decide)

/-- C6: `addUserAgentInfo` is idempotent for a repeated identical token
(exactly one occurrence remains in the duplicate-free accumulator), and two
distinct fresh tokens are both present, in insertion order. -/
theorem addUserAgentInfo_dedup (l : List String) (t t1 t2 : String)
    (hl : l.Nodup) (h1 : t1 ∉ l) (h2 : t2 ∉ l) (hne : t1 ≠ t2) :
    ServiceClient.addUserAgentInfo (ServiceClient.addUserAgentInfo l t) t =
      ServiceClient.addUserAgentInfo l t ∧
    (ServiceClient.addUserAgentInfo
        (ServiceClient.addUserAgentInfo l t) t).count t = 1 ∧
    ServiceClient.addUserAgentInfo (ServiceClient.addUserAgentInfo l t1) t2 =
      l ++ [t1, t2] := by
  unfold ServiceClient.addUserAgentInfo
  by_cases ht : t ∈ l
  · simp [ht, h1, h2, Ne.symm hne, List.count_eq_one_of_mem hl ht]
  · simp [ht, h1, h2, Ne.symm hne, List.count_eq_zero.mpr ht]

/-- C6 witness: on the empty accumulator, adding `"a"` twice leaves exactly
one `"a"`, and adding `"x"` then `"y"` leaves `["x", "y"]`. -/
theorem addUserAgentInfo_dedup_witness :
    ServiceClient.addUserAgentInfo (ServiceClient.addUserAgentInfo [] "a") "a" =
      ServiceClient.addUserAgentInfo [] "a" ∧
    (ServiceClient.addUserAgentInfo
        (ServiceClient.addUserAgentInfo [] "a") "a").count "a" = 1 ∧
    ServiceClient.addUserAgentInfo (ServiceClient.addUserAgentInfo [] "x") "y" =
      [] ++ ["x", "y"] :=
  addUserAgentInfo_dedup [] "a" "x" "y" (by decide) (by decide) (by decide)
    (by decide)

/-- C7: the accumulator is append-only: each call either leaves the list
unchanged or appends the one new token at the end, and every existing entry
keeps its original position. -/
theorem addUserAgentInfo_appendOnly (l : List String) (t : String) (i : Nat)
    (h : i < l.length) :
    (ServiceClient.addUserAgentInfo l t = l ∨
     ServiceClient.addUserAgentInfo l t = l ++ [t]) ∧
    (ServiceClient.addUserAgentInfo l t)[i]? = l[i]? := by
  unfold ServiceClient.addUserAgentInfo
  by_cases ht : t ∈ l <;> simp [ht, List.getElem?_append_left h]

/-- C7 witness: appending `"b"` to `["a"]` extends the list at the end and
keeps `"a"` at position 0. -/
theorem addUserAgentInfo_appendOnly_witness :
    (ServiceClient.addUserAgentInfo ["a"] "b" = ["a"] ∨
     ServiceClient.addUserAgentInfo ["a"] "b" = ["a"] ++ ["b"]) ∧
    (ServiceClient.addUserAgentInfo ["a"] "b")[0]? = ["a"][0]? :=
  addUserAgentInfo_appendOnly ["a"] "b" 0 (by decide)

/-- C2: the signing policy is present in the constructed chain if and only if
a credential argument was supplied; with no credential it is entirely absent
from the creator list. -/
theorem signing_iff_credentials (v : String)
    (credentials : Option ServiceClientCredentials)
    (options0 : Option ServiceClientOptions) (c : ServiceClient)
    (h : ServiceClient.construct v credentials options0 = Except.ok c) :
    PolicyFactoryTag.signing ∈ c.requestPolicyCreators ↔ credentials.isSome := by
  unfold ServiceClient.construct at h
  by_cases hg : credentials.any (fun cr => !cr.hasSignRequest) = true
  · simp [hg] at h
  · simp only [Bool.not_eq_true] at hg
    simp [hg] at h
    subst h
    cases credentials with
    | none => by_cases hr : (options0.getD {}).noRetryPolicy.getD false <;>
        simp [hr, List.mem_append, List.mem_map]
    | some cr => by_cases hr : (options0.getD {}).noRetryPolicy.getD false <;>
        simp [hr, List.mem_append, List.mem_map]

/-- C2 witness: constructing with a credential puts the signing policy in the
chain. -/
theorem signing_iff_credentials_witness :
    PolicyFactoryTag.signing ∈
        (ServiceClient.mk ["ms-rest-js/1.0"]
          [PolicyFactoryTag.signing, PolicyFactoryTag.msRestUserAgent,
           PolicyFactoryTag.redirect, PolicyFactoryTag.rpRegistration,
           PolicyFactoryTag.exponentialRetry,
           PolicyFactoryTag.systemErrorRetry]).requestPolicyCreators ↔
      (some (ServiceClientCredentials.mk true)).isSome :=
  signing_iff_credentials "1.0" (some (ServiceClientCredentials.mk true)) none _
    (by rfl)

/-- C3: when `options.noRetryPolicy` is truthy both retry policies are
omitted from the constructed chain; when it is absent or false both are
included. -/
theorem noRetryPolicy_controls_retries (v : String)
    (credentials : Option ServiceClientCredentials)
    (options0 : Option ServiceClientOptions) (c : ServiceClient)
    (h : ServiceClient.construct v credentials options0 = Except.ok c) :
    ((options0.getD {}).noRetryPolicy.getD false = true →
      PolicyFactoryTag.exponentialRetry ∉ c.requestPolicyCreators ∧
      PolicyFactoryTag.systemErrorRetry ∉ c.requestPolicyCreators) ∧
    ((options0.getD {}).noRetryPolicy.getD false = false →
      PolicyFactoryTag.exponentialRetry ∈ c.requestPolicyCreators ∧
      PolicyFactoryTag.systemErrorRetry ∈ c.requestPolicyCreators) := by
  unfold ServiceClient.construct at h
  by_cases hg : credentials.any (fun cr => !cr.hasSignRequest) = true
  · simp [hg] at h
  · simp only [Bool.not_eq_true] at hg
    simp [hg] at h
    subst h
    by_cases hr : (options0.getD {}).noRetryPolicy.getD false <;>
      cases credentials <;>
        simp [hr, List.mem_append, List.mem_map]

/-- C3 witness: with `noRetryPolicy: true` and no credential, neither retry
policy is in the chain. -/
theorem noRetryPolicy_controls_retries_witness :
    (((some (ServiceClientOptions.mk none (some true) none)).getD
          {}).noRetryPolicy.getD false = true →
      PolicyFactoryTag.exponentialRetry ∉
        (ServiceClient.mk ["ms-rest-js/1.0"]
          [PolicyFactoryTag.msRestUserAgent, PolicyFactoryTag.redirect,
           PolicyFactoryTag.rpRegistration]).requestPolicyCreators ∧
      PolicyFactoryTag.systemErrorRetry ∉
        (ServiceClient.mk ["ms-rest-js/1.0"]
          [PolicyFactoryTag.msRestUserAgent, PolicyFactoryTag.redirect,
           PolicyFactoryTag.rpRegistration]).requestPolicyCreators) ∧
    (((some (ServiceClientOptions.mk none (some true) none)).getD
          {}).noRetryPolicy.getD false = false →
      PolicyFactoryTag.exponentialRetry ∈
        (ServiceClient.mk ["ms-rest-js/1.0"]
          [PolicyFactoryTag.msRestUserAgent, PolicyFactoryTag.redirect,
           PolicyFactoryTag.rpRegistration]).requestPolicyCreators ∧
      PolicyFactoryTag.systemErrorRetry ∈
        (ServiceClient.mk ["ms-rest-js/1.0"]
          [PolicyFactoryTag.msRestUserAgent, PolicyFactoryTag.redirect,
           PolicyFactoryTag.rpRegistration]).requestPolicyCreators) :=
  noRetryPolicy_controls_retries "1.0" none
    (some (ServiceClientOptions.mk none (some true) none)) _ (by rfl)

/-- C5: in a default-constructed chain (retries not disabled), the
system-error retry policy is registered immediately after the exponential
retry policy — the two are the final entries, in that order — so on the
response side the exponential retry policy sees the outcome of the
system-error retry loop on the way back out. -/
theorem systemErrorRetry_inward_of_exponentialRetry (v : String)
    (credentials : Option ServiceClientCredentials)
    (options0 : Option ServiceClientOptions) (c : ServiceClient)
    (h : ServiceClient.construct v credentials options0 = Except.ok c)
    (hr : (options0.getD {}).noRetryPolicy.getD false = false) :
    ∃ l, c.requestPolicyCreators =
        l ++ [PolicyFactoryTag.exponentialRetry,
              PolicyFactoryTag.systemErrorRetry] ∧
      (createRequestPipeline c.requestPolicyCreators []).responseTrace =
        PolicyFactoryTag.systemErrorRetry :: PolicyFactoryTag.exponentialRetry
          :: l.reverse := by
  unfold ServiceClient.construct at h
  by_cases hg : credentials.any (fun cr => !cr.hasSignRequest) = true
  · simp [hg] at h
  · simp only [Bool.not_eq_true] at hg
    simp [hg] at h
    subst h
    refine ⟨((((options0.getD {}).requestPolicyCreators.getD []).map
        PolicyFactoryTag.caller
          ++ (if credentials.isSome then [PolicyFactoryTag.signing] else []))
        ++ [PolicyFactoryTag.msRestUserAgent, PolicyFactoryTag.redirect,
            PolicyFactoryTag.rpRegistration]), ?_, ?_⟩
    · simp [hr]
    · rw [(createRequestPipeline_trace _ []).2]
      simp [hr, List.reverse_append]

/-- C5 witness: a default construction with no credential yields the chain
`[userAgent, redirect, rpRegistration, exponentialRetry, systemErrorRetry]`,
whose response trace starts with the system-error retry policy followed by
the exponential retry policy. -/
theorem systemErrorRetry_inward_of_exponentialRetry_witness :
    ∃ l, (ServiceClient.mk ["ms-rest-js/1.0"]
        [PolicyFactoryTag.msRestUserAgent, PolicyFactoryTag.redirect,
         PolicyFactoryTag.rpRegistration, PolicyFactoryTag.exponentialRetry,
         PolicyFactoryTag.systemErrorRetry]).requestPolicyCreators =
        l ++ [PolicyFactoryTag.exponentialRetry,
              PolicyFactoryTag.systemErrorRetry] ∧
      (createRequestPipeline
          (ServiceClient.mk ["ms-rest-js/1.0"]
            [PolicyFactoryTag.msRestUserAgent, PolicyFactoryTag.redirect,
             PolicyFactoryTag.rpRegistration,
             PolicyFactoryTag.exponentialRetry,
             PolicyFactoryTag.systemErrorRetry]).requestPolicyCreators
          []).responseTrace =
        PolicyFactoryTag.systemErrorRetry :: PolicyFactoryTag.exponentialRetry
          :: l.reverse :=
  systemErrorRetry_inward_of_exponentialRetry "1.0" none none _ (by rfl)
    (by rfl)

/-- C8: when the caller supplies `options.requestPolicyCreators`, the
constructor appends the default creators after the caller's entries, so every
caller-supplied creator precedes every default creator in registration order;
the appended defaults contain no caller entry and include the user-agent,
redirect and rpRegistration filters. -/
theorem callerCreators_precede_defaults (v : String)
    (credentials : Option ServiceClientCredentials)
    (options : ServiceClientOptions) (callers : List Nat) (c : ServiceClient)
    (hc : options.requestPolicyCreators = some callers)
    (h : ServiceClient.construct v credentials (some options) = Except.ok c) :
    ∃ defaults : List PolicyFactoryTag,
      c.requestPolicyCreators =
        callers.map PolicyFactoryTag.caller ++ defaults ∧
      (∀ t ∈ defaults, ∀ i, t ≠ PolicyFactoryTag.caller i) ∧
      PolicyFactoryTag.msRestUserAgent ∈ defaults ∧
      PolicyFactoryTag.redirect ∈ defaults ∧
      PolicyFactoryTag.rpRegistration ∈ defaults := by
  unfold ServiceClient.construct at h
  by_cases hg : credentials.any (fun cr => !cr.hasSignRequest) = true
  · simp [hg] at h
  · simp only [Bool.not_eq_true] at hg
    simp [hg] at h
    subst h
    refine ⟨(if credentials.isSome then [PolicyFactoryTag.signing] else [])
        ++ [PolicyFactoryTag.msRestUserAgent, PolicyFactoryTag.redirect,
            PolicyFactoryTag.rpRegistration]
        ++ (if options.noRetryPolicy.getD false then []
            else [PolicyFactoryTag.exponentialRetry,
                  PolicyFactoryTag.systemErrorRetry]), ?_, ?_, ?_, ?_, ?_⟩ <;>
      cases credentials <;>
        by_cases hr : options.noRetryPolicy.getD false <;>
          simp [hc, hr, List.mem_append, List.mem_map]

/-- C8 witness: with caller creators `[5, 7]` and no credential, the chain is
the two caller entries followed by the five default entries. -/
theorem callerCreators_precede_defaults_witness :
    ∃ defaults : List PolicyFactoryTag,
      (ServiceClient.mk ["ms-rest-js/1.0"]
          [PolicyFactoryTag.caller 5, PolicyFactoryTag.caller 7,
           PolicyFactoryTag.msRestUserAgent, PolicyFactoryTag.redirect,
           PolicyFactoryTag.rpRegistration, PolicyFactoryTag.exponentialRetry,
           PolicyFactoryTag.systemErrorRetry]).requestPolicyCreators =
        [5, 7].map PolicyFactoryTag.caller ++ defaults ∧
      (∀ t ∈ defaults, ∀ i, t ≠ PolicyFactoryTag.caller i) ∧
      PolicyFactoryTag.msRestUserAgent ∈ defaults ∧
      PolicyFactoryTag.redirect ∈ defaults ∧
      PolicyFactoryTag.rpRegistration ∈ defaults :=
  callerCreators_precede_defaults "1.0" none
    (ServiceClientOptions.mk (some [5, 7]) none none) [5, 7] _ rfl (by rfl)

/-- C9: every successful construction seeds the user-agent accumulator with
the single token `"ms-rest-js/" ++ version`, and that token stays the first
entry after any later sequence of `addUserAgentInfo` calls. -/
theorem userAgent_seeded_first (v : String)
    (credentials : Option ServiceClientCredentials)
    (options0 : Option ServiceClientOptions) (c : ServiceClient)
    (ts : List String)
    (h : ServiceClient.construct v credentials options0 = Except.ok c) :
    c.userAgentInfo = [moduleName ++ "/" ++ v] ∧
    (ts.foldl ServiceClient.addUserAgentInfo c.userAgentInfo).head? =
      some (moduleName ++ "/" ++ v) := by
  unfold ServiceClient.construct at h
  by_cases hg : credentials.any (fun cr => !cr.hasSignRequest) = true
  · simp [hg] at h
  · simp only [Bool.not_eq_true] at hg
    simp [hg] at h
    subst h
    have hseed : ServiceClient.addUserAgentInfo [] (moduleName ++ "/" ++ v) =
        [moduleName ++ "/" ++ v] := by
      unfold ServiceClient.addUserAgentInfo
      simp
    refine ⟨hseed, ?_⟩
    rw [hseed, addUserAgentInfo_foldl_head ts _ (by simp)]
    rfl

/-- C9 witness: construction with version `"1.0"` seeds the accumulator with
`"ms-rest-js/1.0"`, which remains the head after adding `"x"`. -/
theorem userAgent_seeded_first_witness :
    (ServiceClient.mk ["ms-rest-js/1.0"]
        [PolicyFactoryTag.msRestUserAgent, PolicyFactoryTag.redirect,
         PolicyFactoryTag.rpRegistration, PolicyFactoryTag.exponentialRetry,
         PolicyFactoryTag.systemErrorRetry]).userAgentInfo =
      [moduleName ++ "/" ++ "1.0"] ∧
    (["x"].foldl ServiceClient.addUserAgentInfo
        (ServiceClient.mk ["ms-rest-js/1.0"]
          [PolicyFactoryTag.msRestUserAgent, PolicyFactoryTag.redirect,
           PolicyFactoryTag.rpRegistration, PolicyFactoryTag.exponentialRetry,
           PolicyFactoryTag.systemErrorRetry]).userAgentInfo).head? =
      some (moduleName ++ "/" ++ "1.0") :=
  userAgent_seeded_first "1.0" none none _ ["x"] (by rfl)

/-- C10: supplying a credentials argument that does not expose `signRequest`
makes the constructor fail immediately with the configuration error, before
any chain is built. -/
theorem construct_rejects_unsigned_credentials (v : String)
    (cred : ServiceClientCredentials)
    (options0 : Option ServiceClientOptions)
    (h : cred.hasSignRequest = false) :
    ServiceClient.construct v (some cred) options0 =
      Except.error "credentials argument needs to implement signRequest method"
    := by
  unfold ServiceClient.construct
  simp [Option.any, h]

/-- C10 witness: a credential without `signRequest` is rejected at
construction time. -/
theorem construct_rejects_unsigned_credentials_witness :
    ServiceClient.construct "1.0" (some (ServiceClientCredentials.mk false))
        none =
      Except.error "credentials argument needs to implement signRequest method"
    :=
  construct_rejects_unsigned_credentials "1.0"
    (ServiceClientCredentials.mk false) none (by rfl)

end MsRest
